import Mathlib

/-!
Shallow embedding of `src/rust/src/api/mls_api.rs`, the public FFI surface of
the nostr-mls-package repository.  The wrapper drives an external engine
(the `nostr_mls` crate) through a process-wide `Mutex<Option<NostrMls<_>>>`
slot.  External crate operations (crypto engine calls, parser functions from
the `nostr` crate, serde serialization of opaque foreign values) are modelled
as parameters: fields of the `NostrMls` structure for methods on the engine,
and fields of `Externals` for free parsing functions.  The lock is modelled
as always acquired (the embedding is single-threaded; the poisoned-lock error
branch of the source is a concurrency artifact with no pure counterpart).
JSON output strings built with `json!` and `.to_string()` are modelled as
structural `Json` values; serialization to text is presentation detail.
-/

namespace MlsApi

/-- Structural model of the `serde_json::Value` outputs built with `json!`. -/
inductive Json where
  | null : Json
  | bool : Bool → Json
  | num : Nat → Json
  | str : String → Json
  | arr : List Json → Json
  | obj : List (String × Json) → Json

/-- Field lookup in a JSON object (none on non-objects). -/
def Json.lookup : Json → String → Option Json
  | .obj fs, k => fs.lookup k
  | _, _ => none

/-- `nostr::PublicKey`, opaque; `repr` is its `to_string()` rendering. -/
structure PublicKey where
  repr : String
deriving DecidableEq

/-- `nostr::RelayUrl`, opaque. -/
structure RelayUrl where
  repr : String
deriving DecidableEq

/-- An MLS key package parsed by the engine, opaque. -/
structure KeyPackage where
  raw : String
deriving DecidableEq

/-- `nostr::UnsignedEvent`, opaque. -/
structure UnsignedEvent where
  raw : String
deriving DecidableEq

/-- `nostr::Event`; `toJson` models `serde_json::to_value(&event)`. -/
structure Event where
  raw : String
  toJson : Except String Json

/-- `openmls::GroupId`.  `GroupId::from_slice` is infallible in the source:
it accepts any byte slice and stores the bytes unchanged. -/
structure GroupId where
  bytes : List Nat
deriving DecidableEq

/-- `GroupId::from_slice`: total, no validation of length or content. -/
def GroupId.fromSlice (b : List Nat) : GroupId := ⟨b⟩

/-- serde serialization of a `GroupId` inside `json!`. -/
def GroupId.toJson (g : GroupId) : Json := Json.arr (g.bytes.map Json.num)

/-- `nostr::EventId`; `EventId::from_slice` requires exactly 32 bytes. -/
structure EventId where
  bytes : List Nat
deriving DecidableEq

/-- `EventId::from_slice`: fails unless the slice has the exact id length. -/
def EventId.fromSlice (b : List Nat) : Except String EventId :=
  if b.length = 32 then .ok ⟨b⟩ else .error "invalid event id length"

/-- An MLS extension value; `debugRepr` is its `format "(debug)"` rendering. -/
structure Ext where
  debugRepr : String
deriving DecidableEq

/-- A nostr event tag; `debugRepr` is its debug-format rendering. -/
structure Tag where
  debugRepr : String
deriving DecidableEq

/-- Debug formatting of a `u16` prints its decimal digits. -/
def u16Debug (n : Nat) : String := toString n

/-- Decrypted application message, opaque; `toJson` models
`serde_json::to_value(&message)`. -/
structure Message where
  toJson : Except String Json

/-- Member changes detected while processing a commit message. -/
structure MemberChanges where
  added_members : List String
  removed_members : List String

/-- Result of `nostr_mls.process_message`. -/
structure ProcessResult where
  message : Option Message
  member_changes : Option MemberChanges

/-- The stored group record (`group_types::Group`) as used by the wrapper. -/
structure Group where
  mls_group_id : GroupId
  nostr_group_id : String
  name : String
  description : String
  admin_pubkeys : List PublicKey

/-- Result of `nostr_mls.create_group`. -/
structure GroupCreateResult where
  group : Group
  serialized_welcome_message : List Nat

/-- Result of `nostr_mls.exporter_secret`. -/
structure ExportSecret where
  secret : List Nat
  epoch : Nat

/-- Group metadata carried by a welcome preview
(`welcome_preview.nostr_group_data`). -/
structure NostrGroupData where
  nostr_group_id : List Nat
  name : String
  description : String
  admins : List PublicKey

/-- Result of `nostr_mls.preview_welcome`. -/
structure WelcomePreview where
  nostr_group_data : NostrGroupData

/-- Result of `nostr_mls.process_welcome`. -/
structure Welcome where
  mls_group_id : List Nat
  nostr_group_id : String
  group_name : String
  group_description : String
  group_admin_pubkeys : List PublicKey

/-- Result of `nostr_mls.add_members`; the two fields are serde-serialized
foreign events, modelled as opaque JSON. -/
structure AddMembersResult where
  commit_message : Json
  welcome_message : Json

/-- Result of `nostr_mls.remove_members`. -/
structure RemoveMembersResult where
  serialized : List Nat

/-- A queued MLS proposal, opaque. -/
structure QueuedProposal where
  raw : String
deriving DecidableEq

/-- Result of `nostr_mls.commit_proposal`. -/
structure CommitProposalResult where
  commit_message : Json
  welcome_message : Json

/-- Result of `nostr_mls.leave_group`. -/
structure LeaveGroupResult where
  serialized : List Nat

/-- The external engine handle `NostrMls<NostrMlsSqliteStorage>`: its public
fields and the methods the wrapper calls, modelled as function fields. -/
structure NostrMls where
  ciphersuite : Nat
  extensions : List Ext
  createKeyPackageForEvent : PublicKey → List RelayUrl → Except String (String × List Tag)
  parseSerializedKeyPackage : String → Except String KeyPackage
  createGroup : String → String → PublicKey → List PublicKey → List KeyPackage →
      List PublicKey → List RelayUrl → Except String GroupCreateResult
  createMessage : GroupId → UnsignedEvent → Except String Event
  createCommitProposalMessage : GroupId → List Nat → List Nat → Except String Event
  exporterSecret : GroupId → Except String ExportSecret
  processMessage : Event → Except String ProcessResult
  previewWelcome : EventId → UnsignedEvent → Except String WelcomePreview
  processWelcome : EventId → UnsignedEvent → Except String Welcome
  getMembers : GroupId → Except String (List PublicKey)
  getGroup : GroupId → Except String (Option Group)
  addMembers : GroupId → List KeyPackage → Except String AddMembersResult
  removeMembers : GroupId → List String → Except String RemoveMembersResult
  commitProposal : GroupId → QueuedProposal → Except String CommitProposalResult
  leaveGroup : GroupId → Except String LeaveGroupResult

/-- Free parsing functions from external crates used by the wrapper. -/
structure Externals where
  publicKeyFromStr : String → Except String PublicKey
  relayUrlFromStr : String → Except String RelayUrl
  unsignedEventFromJson : String → Except String UnsignedEvent
  eventFromJsonStr : String → Except String Event
  proposalFromJsonStr : String → Except String QueuedProposal

/-- One constructor per `anyhow` error site of the wrapper (the formatted
message text is carried as the wrapped string where the site interpolates
an external error). -/
inductive MlsError where
  | notInitialized
  | invalidPublicKey : String → MlsError
  | invalidMemberPubkey : String → MlsError
  | invalidAdminPubkey : String → MlsError
  | invalidCreatorPubkey : String → MlsError
  | invalidRelayUrl : String → MlsError
  | createKeyPackageFailed : String → MlsError
  | parseKeyPackageFailed : String → MlsError
  | createGroupFailed : String → MlsError
  | getMembersFailed : String → MlsError
  | parseEventFailed : String → MlsError
  | createMessageFailed : String → MlsError
  | serializeEventFailed : String → MlsError
  | exportSecretFailed : String → MlsError
  | deserializeEventFailed : String → MlsError
  | processMessageFailed : String → MlsError
  | serializeMessageFailed : String → MlsError
  | invalidEventId : String → MlsError
  | processWelcomeFailed : String → MlsError
  | getGroupFailed : String → MlsError
  | groupNotFound
  | addMembersFailed : String → MlsError
  | removeMembersFailed : String → MlsError
  | deserializeProposalFailed : String → MlsError
  | commitProposalFailed : String → MlsError
  | leaveGroupFailed : String → MlsError
  | storageInitFailed : String → MlsError
deriving DecidableEq

/-- `mls.as_ref().ok_or_else(NostrMls is not initialized)`: the common
guard every operation other than `init_nostr_mls` begins with. -/
def requireInit (slot : Option NostrMls) : Except MlsError NostrMls :=
  match slot with
  | none => .error .notInitialized
  | some m => .ok m

/-- `get_ciphersuite`: formats the ciphersuite (cast to `u16`) with the
debug formatter and wraps it as a JSON string field. -/
def get_ciphersuite (slot : Option NostrMls) : Except MlsError Json := do
  let nostr_mls ← requireInit slot
  let ciphersuite := u16Debug nostr_mls.ciphersuite
  pure (Json.obj [("ciphersuite", Json.str ciphersuite)])

/-- `get_extensions`: debug-formats each extension and joins them with
commas into a single JSON string field. -/
def get_extensions (slot : Option NostrMls) : Except MlsError Json := do
  let nostr_mls ← requireInit slot
  let extensions := String.intercalate "," (nostr_mls.extensions.map Ext.debugRepr)
  pure (Json.obj [("extensions", Json.str extensions)])

/-- `create_key_package_for_event`: parses the public key, then the relay
urls, and only then calls the engine; tags are debug-formatted strings. -/
def create_key_package_for_event (ext : Externals) (slot : Option NostrMls)
    (public_key : String) (relay : Option (List String)) : Except MlsError Json := do
  let nostr_mls ← requireInit slot
  let pk ← (ext.publicKeyFromStr public_key).mapError MlsError.invalidPublicKey
  let relays ← (match relay with
    | some rs => rs.mapM
        (fun r => (ext.relayUrlFromStr r).mapError (fun _ => MlsError.invalidRelayUrl r))
    | none => pure [])
  let res ← (nostr_mls.createKeyPackageForEvent pk relays).mapError
    MlsError.createKeyPackageFailed
  let tags_str := res.2.map (fun tag => Json.str tag.debugRepr)
  pure (Json.obj [("encoded_key_package", Json.str res.1), ("tags", Json.arr tags_str)])

/-- serde serialization of the `admin_pubkeys` vector inside `json!`. -/
def pubkeysJson (pks : List PublicKey) : Json :=
  Json.arr (pks.map (fun pk => Json.str pk.repr))

/-- The member-list fetch and output stage of `create_group`, starting right
after `nostr_mls.create_group` returned: fetching members with `get_members`
and, on success, assembling the output object (the `match ... Err(e) =>
return Err(...)` of the source). -/
def create_group_members_stage (nostr_mls : NostrMls) (gcr : GroupCreateResult) :
    Except MlsError Json := do
  let group_id := gcr.group.mls_group_id
  let members ← (match nostr_mls.getMembers group_id with
    | .ok members => pure (members.map (fun pk => pk.repr))
    | .error e => .error (MlsError.getMembersFailed e))
  pure (Json.obj [
    ("mls_group_id", group_id.toJson),
    ("members", Json.arr (members.map Json.str)),
    ("serialized_welcome_message", Json.arr (gcr.serialized_welcome_message.map Json.num)),
    ("nostr_group_data", Json.obj [
      ("nostr_group_id", Json.str gcr.group.nostr_group_id),
      ("name", Json.str gcr.group.name),
      ("description", Json.str gcr.group.description),
      ("admin_pubkeys", pubkeysJson gcr.group.admin_pubkeys)])])

/-- `create_group`: parses member pubkeys, key packages, admin pubkeys, the
creator pubkey and relay urls in source order, calls the engine, then fetches
the member list (failing the whole call if that fetch fails). -/
def create_group (ext : Externals) (slot : Option NostrMls)
    (group_name group_description : String)
    (group_members_serialized_key_packages : List String)
    (group_members_pubkeys : List String)
    (group_creator_public_key : String)
    (group_admin_public_keys : List String)
    (relays : List String) : Except MlsError Json := do
  let nostr_mls ← requireInit slot
  let member_pubkeys ← group_members_pubkeys.mapM
    (fun k => (ext.publicKeyFromStr k).mapError MlsError.invalidMemberPubkey)
  let member_key_packages ← group_members_serialized_key_packages.mapM
    (fun s => (nostr_mls.parseSerializedKeyPackage s).mapError MlsError.parseKeyPackageFailed)
  let admin_pubkeys ← group_admin_public_keys.mapM
    (fun k => (ext.publicKeyFromStr k).mapError MlsError.invalidAdminPubkey)
  let creator ← (ext.publicKeyFromStr group_creator_public_key).mapError
    MlsError.invalidCreatorPubkey
  let relay_urls ← relays.mapM
    (fun r => (ext.relayUrlFromStr r).mapError MlsError.invalidRelayUrl)
  let gcr ← (nostr_mls.createGroup group_name group_description creator
    member_pubkeys member_key_packages admin_pubkeys relay_urls).mapError
    MlsError.createGroupFailed
  create_group_members_stage nostr_mls gcr

/-- The part of `create_message_for_group` after the group id conversion:
the engine call and the serde serialization of the resulting event. -/
def create_message_core (nostr_mls : NostrMls) (gid : GroupId)
    (rumor_event : UnsignedEvent) : Except MlsError Json := do
  let event ← (nostr_mls.createMessage gid rumor_event).mapError
    MlsError.createMessageFailed
  let event_json ← event.toJson.mapError MlsError.serializeEventFailed
  pure (Json.obj [("event", event_json)])

/-- `create_message_for_group`: parses the rumor event, converts the group id
bytes with the infallible `GroupId::from_slice`, then encrypts. -/
def create_message_for_group (ext : Externals) (slot : Option NostrMls)
    (group_id : List Nat) (rumor_event_string : String) : Except MlsError Json := do
  let nostr_mls ← requireInit slot
  let rumor_event ← (ext.unsignedEventFromJson rumor_event_string).mapError
    MlsError.parseEventFailed
  create_message_core nostr_mls (GroupId.fromSlice group_id) rumor_event

/-- The body of `create_commit_message_for_group` after the id conversion. -/
def create_commit_message_core (nostr_mls : NostrMls) (gid : GroupId)
    (serialized_commit : List Nat) (secret_key : List Nat) : Except MlsError Json := do
  let event ← (nostr_mls.createCommitProposalMessage gid serialized_commit
    secret_key).mapError MlsError.createMessageFailed
  let event_json ← event.toJson.mapError MlsError.serializeEventFailed
  pure (Json.obj [("event", event_json)])

/-- `create_commit_message_for_group` (the `secret_key` is a 32-byte array in
the source; the length constraint is enforced by the Rust type). -/
def create_commit_message_for_group (slot : Option NostrMls) (group_id : List Nat)
    (serialized_commit : List Nat) (secret_key : List Nat) : Except MlsError Json := do
  let nostr_mls ← requireInit slot
  create_commit_message_core nostr_mls (GroupId.fromSlice group_id)
    serialized_commit secret_key

/-- The body of `export_secret` after the id conversion. -/
def export_secret_core (nostr_mls : NostrMls) (gid : GroupId) : Except MlsError Json := do
  let es ← (nostr_mls.exporterSecret gid).mapError MlsError.exportSecretFailed
  pure (Json.obj [("secret", Json.arr (es.secret.map Json.num)),
                  ("epoch", Json.num es.epoch)])

/-- `export_secret`: converts the id bytes infallibly, then derives the
exporter secret for the group's current epoch. -/
def export_secret (slot : Option NostrMls) (group_id : List Nat) :
    Except MlsError Json := do
  let nostr_mls ← requireInit slot
  export_secret_core nostr_mls (GroupId.fromSlice group_id)

/-- `process_message_for_group`: deserializes the event, processes it, then
emits a three-field object carrying the optional application payload and the
optional added/removed member lists (null when absent).  serde serialization
of `Vec<String>` member lists cannot fail and is modelled as total. -/
def process_message_for_group (ext : Externals) (slot : Option NostrMls)
    (event_string : String) : Except MlsError Json := do
  let nostr_mls ← requireInit slot
  let event ← (ext.eventFromJsonStr event_string).mapError
    MlsError.deserializeEventFailed
  let result ← (nostr_mls.processMessage event).mapError MlsError.processMessageFailed
  let message_json ← (match result.message with
    | some message => message.toJson.mapError MlsError.serializeMessageFailed
    | none => pure Json.null)
  let membersPair := (match result.member_changes with
    | some mc => (Json.arr (mc.added_members.map Json.str),
                  Json.arr (mc.removed_members.map Json.str))
    | none => (Json.null, Json.null))
  pure (Json.obj [("message", message_json),
                  ("added_members", membersPair.1),
                  ("removed_members", membersPair.2)])

/-- `preview_group_from_welcome`: parses the rumor event, validates the
wrapper event id (exact length), previews the welcome without joining. -/
def preview_group_from_welcome (ext : Externals) (slot : Option NostrMls)
    (wrapper_event_id : List Nat) (rumor_event_string : String) :
    Except MlsError Json := do
  let nostr_mls ← requireInit slot
  let rumor_event ← (ext.unsignedEventFromJson rumor_event_string).mapError
    MlsError.parseEventFailed
  let event_id ← (EventId.fromSlice wrapper_event_id).mapError MlsError.invalidEventId
  let wp ← (nostr_mls.previewWelcome event_id rumor_event).mapError
    MlsError.processWelcomeFailed
  pure (Json.obj [("nostr_group_data", Json.obj [
    ("nostr_group_id", Json.arr (wp.nostr_group_data.nostr_group_id.map Json.num)),
    ("name", Json.str wp.nostr_group_data.name),
    ("description", Json.str wp.nostr_group_data.description),
    ("admin_pubkeys", Json.arr (wp.nostr_group_data.admins.map
      (fun pk => Json.str pk.repr)))])])

/-- `join_group_from_welcome`: parses the rumor event and wrapper id,
processes the welcome (materializing the group), then fetches the joined
group's member list, failing the call if that fetch fails. -/
def join_group_from_welcome (ext : Externals) (slot : Option NostrMls)
    (wrapper_event_id : List Nat) (rumor_event_string : String) :
    Except MlsError Json := do
  let nostr_mls ← requireInit slot
  let rumor_event ← (ext.unsignedEventFromJson rumor_event_string).mapError
    MlsError.parseEventFailed
  let event_id ← (EventId.fromSlice wrapper_event_id).mapError MlsError.invalidEventId
  let welcome ← (nostr_mls.processWelcome event_id rumor_event).mapError
    MlsError.processWelcomeFailed
  let mls_group_id := GroupId.fromSlice welcome.mls_group_id
  let members ← (match nostr_mls.getMembers mls_group_id with
    | .ok members => pure (members.map (fun pk => pk.repr))
    | .error e => .error (MlsError.getMembersFailed e))
  pure (Json.obj [
    ("mls_group_id", mls_group_id.toJson),
    ("members", Json.arr (members.map Json.str)),
    ("nostr_group_data", Json.obj [
      ("nostr_group_id", Json.str welcome.nostr_group_id),
      ("name", Json.str welcome.group_name),
      ("description", Json.str welcome.group_description),
      ("admin_pubkeys", pubkeysJson welcome.group_admin_pubkeys)])])

/-- The body of `get_members` after the id conversion. -/
def get_members_core (nostr_mls : NostrMls) (gid : GroupId) : Except MlsError Json := do
  let members ← (nostr_mls.getMembers gid).mapError MlsError.getMembersFailed
  pure (Json.obj [("members", Json.arr (members.map (fun pk => Json.str pk.repr)))])

/-- `get_members`: converts the id bytes infallibly, then reads members. -/
def get_members (slot : Option NostrMls) (group_id : List Nat) :
    Except MlsError Json := do
  let nostr_mls ← requireInit slot
  get_members_core nostr_mls (GroupId.fromSlice group_id)

/-- The body of `get_group` after the id conversion: the storage lookup
(`Err` on storage failure, `Ok(None)` mapped to a group-not-found error),
then the member fetch, then the output object. -/
def get_group_core (nostr_mls : NostrMls) (gid : GroupId) : Except MlsError Json := do
  let groupOpt ← (nostr_mls.getGroup gid).mapError MlsError.getGroupFailed
  let group ← (match groupOpt with
    | some g => pure g
    | none => .error MlsError.groupNotFound)
  let members ← (nostr_mls.getMembers gid).mapError MlsError.getMembersFailed
  pure (Json.obj [
    ("mls_group_id", gid.toJson),
    ("members", Json.arr (members.map (fun pk => Json.str pk.repr))),
    ("nostr_group_data", Json.obj [
      ("nostr_group_id", Json.str group.nostr_group_id),
      ("name", Json.str group.name),
      ("description", Json.str group.description),
      ("admin_pubkeys", pubkeysJson group.admin_pubkeys)])])

/-- `get_group`: converts the id bytes infallibly, then looks the group up. -/
def get_group (slot : Option NostrMls) (group_id : List Nat) :
    Except MlsError Json := do
  let nostr_mls ← requireInit slot
  get_group_core nostr_mls (GroupId.fromSlice group_id)

/-- The body of `add_members` after the id conversion: parse each serialized
key package in order, then call the engine. -/
def add_members_core (nostr_mls : NostrMls) (gid : GroupId)
    (serialized_key_packages : List String) : Except MlsError Json := do
  let key_packages ← serialized_key_packages.mapM
    (fun s => (nostr_mls.parseSerializedKeyPackage s).mapError
      MlsError.parseKeyPackageFailed)
  let result ← (nostr_mls.addMembers gid key_packages).mapError
    MlsError.addMembersFailed
  pure (Json.obj [("commit_message", result.commit_message),
                  ("welcome_message", result.welcome_message)])

/-- `add_members`: converts the id bytes infallibly, then parses and adds. -/
def add_members (slot : Option NostrMls) (group_id : List Nat)
    (serialized_key_packages : List String) : Except MlsError Json := do
  let nostr_mls ← requireInit slot
  add_members_core nostr_mls (GroupId.fromSlice group_id) serialized_key_packages

/-- The body of `remove_members` after the id conversion. -/
def remove_members_core (nostr_mls : NostrMls) (gid : GroupId)
    (member_pubkeys : List String) : Except MlsError Json := do
  let result ← (nostr_mls.removeMembers gid member_pubkeys).mapError
    MlsError.removeMembersFailed
  pure (Json.obj [("serialized_commit", Json.arr (result.serialized.map Json.num))])

/-- `remove_members`: converts the id bytes infallibly, then removes. -/
def remove_members (slot : Option NostrMls) (group_id : List Nat)
    (member_pubkeys : List String) : Except MlsError Json := do
  let nostr_mls ← requireInit slot
  remove_members_core nostr_mls (GroupId.fromSlice group_id) member_pubkeys

/-- The body of `commit_proposal` after the id conversion: deserialize the
proposal, then call the engine. -/
def commit_proposal_core (ext : Externals) (nostr_mls : NostrMls) (gid : GroupId)
    (proposal : String) : Except MlsError Json := do
  let queued ← (ext.proposalFromJsonStr proposal).mapError
    MlsError.deserializeProposalFailed
  let result ← (nostr_mls.commitProposal gid queued).mapError
    MlsError.commitProposalFailed
  pure (Json.obj [("commit_message", result.commit_message),
                  ("welcome_message", result.welcome_message)])

/-- `commit_proposal`: converts the id bytes infallibly, then commits. -/
def commit_proposal (ext : Externals) (slot : Option NostrMls) (group_id : List Nat)
    (proposal : String) : Except MlsError Json := do
  let nostr_mls ← requireInit slot
  commit_proposal_core ext nostr_mls (GroupId.fromSlice group_id) proposal

/-- The body of `leave_group` after the id conversion. -/
def leave_group_core (nostr_mls : NostrMls) (gid : GroupId) : Except MlsError Json := do
  let result ← (nostr_mls.leaveGroup gid).mapError MlsError.leaveGroupFailed
  pure (Json.obj [("serialized_leave", Json.arr (result.serialized.map Json.num))])

/-- `leave_group`: converts the id bytes infallibly, then leaves. -/
def leave_group (slot : Option NostrMls) (group_id : List Nat) :
    Except MlsError Json := do
  let nostr_mls ← requireInit slot
  leave_group_core nostr_mls (GroupId.fromSlice group_id)

/-! ### Session initialization (`init_nostr_mls`)

`init_nostr_mls` executes, in source order: (1) `mls.take()` removes any
prior session from the slot and `drop(old_mls)` releases it; (2) the database
path is derived from the supplied directory and identity; (3)
`NostrMlsSqliteStorage::new_with_password(db_path, password)` constructs the
new storage, with `?` returning early on failure; (4) `*mls = Some(...)`
installs the new session.  The composite of the storage constructor and the
infallible `NostrMls::new` is modelled as the parameter `newSession`. -/

/-- `PathBuf::join`: an absolute right-hand component replaces the base. -/
def pathJoin (base component : String) : String :=
  if component.startsWith "/" then component else base ++ "/" ++ component

/-- The database path derivation of `init_nostr_mls`:
`PathBuf::from(path).join(identity.unwrap_or(default) + "-mls.db")`. -/
def dbPath (path : String) (identity : Option String) : String :=
  pathJoin path ((identity.getD "default") ++ "-mls.db")

/-- `init_nostr_mls` (final result and final slot): takes and drops any prior
session, derives the db path, constructs the new session, installs it.  On a
storage construction failure the early return leaves the slot empty. -/
def init_nostr_mls (newSession : String → Option String → Except String NostrMls)
    (path : String) (identity password : Option String)
    (prior : Option NostrMls) : Except MlsError Json × Option NostrMls :=
  match newSession (dbPath path identity) password with
  | .error e => (.error (MlsError.storageInitFailed e), none)
  | .ok s => (.ok (Json.obj [("status", Json.str "success")]), some s)

/-- The observable effects of one `init_nostr_mls` run, in source order. -/
inductive InitEvent where
  | droppedPrior
  | storageInitAttemptFailed
  | storageConstructed
  | installedNew
deriving DecidableEq

/-- Effect order of `init_nostr_mls`: the prior session (when present) is
taken and dropped first; only then is the new storage construction attempted;
installation happens last and only on success. -/
def init_nostr_mls_events (newSession : String → Option String → Except String NostrMls)
    (path : String) (identity password : Option String)
    (prior : Option NostrMls) : List InitEvent :=
  (match prior with
    | some _ => [InitEvent.droppedPrior]
    | none => []) ++
  (match newSession (dbPath path identity) password with
    | .error _ => [InitEvent.storageInitAttemptFailed]
    | .ok _ => [InitEvent.storageConstructed, InitEvent.installedNew])

/-- The successive values of the session slot at each program point of
`init_nostr_mls`: before the call, after `mls.take()`, after the storage
construction attempt, and (on success) after `*mls = Some(...)`. -/
def init_slot_trace (newSession : String → Option String → Except String NostrMls)
    (path : String) (identity password : Option String)
    (prior : Option NostrMls) : List (Option NostrMls) :=
  [prior, none] ++
  (match newSession (dbPath path identity) password with
    | .error _ => [none]
    | .ok s => [none, some s])

/-! ### Spec-modelled commit application (for epoch monotonicity)

The state mutation performed by `add_members`, `remove_members` and
`commit_proposal` happens inside the external `nostr_mls` crate; the wrapper
under `src/` only forwards to it.  The definitions below are modelled from
the spec. -/

/-- Modelled from the spec: a member's single-use key package as consumed by
commit-producing operations (spec §3, §4.2, §8.2). -/
structure SpecKeyPackage where
  owner : String
  consumed : Bool
deriving DecidableEq

/-- Modelled from the spec: the authoritative per-group record with its
monotonically increasing epoch counter (spec §3 GroupState). -/
structure SpecGroupState where
  epoch : Nat
  members : List String
  admins : List String
deriving DecidableEq

/-- Modelled from the spec: the three commit-producing operations of the
Group Session Manager (spec §4.2). -/
inductive CommitOp where
  | addMembers : List SpecKeyPackage → CommitOp
  | removeMembers : List String → CommitOp
  | commitProposal : Nat → CommitOp
deriving DecidableEq

/-- Modelled from the spec: error kinds of commit application (spec §7). -/
inductive SpecCommitErr where
  | invalidKeyPackage
  | memberNotFound
  | staleProposal
deriving DecidableEq

/-- Modelled from the spec: applying one commit-producing operation.
`add_members` consumes each key package exactly once and fails on an
already-consumed package; `remove_members` fails when a pubkey is not a
current member; `commit_proposal` fails on a proposal referencing a
superseded epoch.  Every successful application advances the epoch by one
(spec §4.2, §8.1). -/
def applyCommit (st : SpecGroupState) : CommitOp → Except SpecCommitErr SpecGroupState
  | .addMembers kps =>
      if kps.any (fun kp => kp.consumed) then .error .invalidKeyPackage
      else .ok { st with
        epoch := st.epoch + 1
        members := st.members ++ kps.map (fun kp => kp.owner) }
  | .removeMembers pks =>
      if pks.all (fun p => st.members.contains p) then
        .ok { st with
          epoch := st.epoch + 1
          members := st.members.filter (fun m => !(pks.contains m)) }
      else .error .memberNotFound
  | .commitProposal proposalEpoch =>
      if proposalEpoch = st.epoch then .ok { st with epoch := st.epoch + 1 }
      else .error .staleProposal

/-- Modelled from the spec: running a sequence of commits, recording the
epoch observed after each successful commit; any failure aborts the run. -/
def runCommits (st : SpecGroupState) :
    List CommitOp → Except SpecCommitErr (SpecGroupState × List Nat)
  | [] => .ok (st, [])
  | op :: ops =>
    match applyCommit st op with
    | .error e => .error e
    | .ok st2 =>
      match runCommits st2 ops with
      | .error e => .error e
      | .ok (fin, tr) => .ok (fin, st2.epoch :: tr)

/-! ### Concrete fixtures used to instantiate the theorems -/

/-- An engine whose every call errs; fields are overridden per fixture. -/
def stubEngine : NostrMls where
  ciphersuite := 1
  extensions := []
  createKeyPackageForEvent := fun _ _ => .error "unused"
  parseSerializedKeyPackage := fun _ => .error "unused"
  createGroup := fun _ _ _ _ _ _ _ => .error "unused"
  createMessage := fun _ _ => .error "unused"
  createCommitProposalMessage := fun _ _ _ => .error "unused"
  exporterSecret := fun _ => .error "unused"
  processMessage := fun _ => .error "unused"
  previewWelcome := fun _ _ => .error "unused"
  processWelcome := fun _ _ => .error "unused"
  getMembers := fun _ => .error "unused"
  getGroup := fun _ => .error "unused"
  addMembers := fun _ _ => .error "unused"
  removeMembers := fun _ _ => .error "unused"
  commitProposal := fun _ _ => .error "unused"
  leaveGroup := fun _ => .error "unused"

/-- Externals whose parsers accept everything verbatim. -/
def stubExternals : Externals where
  publicKeyFromStr := fun s => .ok ⟨s⟩
  relayUrlFromStr := fun s => .ok ⟨s⟩
  unsignedEventFromJson := fun s => .ok ⟨s⟩
  eventFromJsonStr := fun s => .ok ⟨s, .ok Json.null⟩
  proposalFromJsonStr := fun s => .ok ⟨s⟩

/-- Fixture for the debug-format outputs: ciphersuite 1 and two named
extensions. -/
def debugMls : NostrMls :=
  { stubEngine with extensions := [⟨"LastResort"⟩, ⟨"RatchetTree"⟩] }

/-- Fixture engine returning a key package creation result with one tag. -/
def tagMls : NostrMls :=
  { stubEngine with
    createKeyPackageForEvent := fun _ _ => .ok ("ekp", [⟨"Tag-debug"⟩]) }

/-- Fixture stored group with empty admins. -/
def cexGroup : Group :=
  { mls_group_id := ⟨[]⟩, nostr_group_id := "ng", name := "n",
    description := "d", admin_pubkeys := [] }

/-- Fixture engine that has a group stored under every id, including the
empty (malformed) byte id. -/
def foundMls : NostrMls :=
  { stubEngine with
    getGroup := fun _ => .ok (some cexGroup)
    getMembers := fun _ => .ok [⟨"a"⟩] }

/-- Fixture engine with no group stored under any id. -/
def notFoundMls : NostrMls :=
  { stubEngine with getGroup := fun _ => .ok none }

/-- Fixture externals whose public key parser rejects everything. -/
def badPkExternals : Externals :=
  { stubExternals with publicKeyFromStr := fun _ => .error "bad pk" }

/-- Fixture externals whose relay url parser rejects everything. -/
def badRelayExternals : Externals :=
  { stubExternals with relayUrlFromStr := fun _ => .error "bad url" }

/-- Fixture engine whose group creation succeeds but whose member fetch
fails. -/
def memberFetchFailMls : NostrMls :=
  { stubEngine with
    createGroup := fun _ _ _ _ _ _ _ =>
      .ok { group := cexGroup, serialized_welcome_message := [] }
    getMembers := fun _ => .error "db" }

/-- Fixture engine whose group creation and member fetch both succeed. -/
def memberFetchOkMls : NostrMls :=
  { stubEngine with
    createGroup := fun _ _ _ _ _ _ _ =>
      .ok { group := cexGroup, serialized_welcome_message := [] }
    getMembers := fun _ => .ok [⟨"a"⟩] }

/-- Fixture engine whose message processing yields both an application
payload and member changes. -/
def procMls : NostrMls :=
  { stubEngine with
    processMessage := fun _ =>
      .ok { message := some ⟨.ok (Json.obj [("kind", Json.num 9)])⟩
            member_changes := some ⟨["a"], ["b"]⟩ } }

/-- The spec's `InvalidInput` error class (spec §7): errors reporting a
malformed input rather than an engine or storage failure. -/
def MlsError.isInvalidInput : MlsError → Prop
  | .invalidPublicKey _ => True
  | .invalidMemberPubkey _ => True
  | .invalidAdminPubkey _ => True
  | .invalidCreatorPubkey _ => True
  | .invalidRelayUrl _ => True
  | .invalidEventId _ => True
  | _ => False

/-- Follows the spec's words (§9): an output field is an explicit structured
value, as opposed to a (debug-)printed string. -/
def specStructuredValue (j : Json) : Prop := ∀ s, j ≠ Json.str s

/-! ### Theorems -/

theorem except_pure {α ε : Type} (a : α) :
    (pure a : Except ε α) = Except.ok a := rfl

theorem except_ok_bind {α β ε : Type} (a : α) (f : α → Except ε β) :
    ((Except.ok a : Except ε α) >>= f) = f a := rfl

theorem except_error_bind {α β ε : Type} (e : ε) (f : α → Except ε β) :
    ((Except.error e : Except ε α) >>= f) = Except.error e := rfl

theorem except_mapError_ok {α ε ε' : Type} (a : α) (f : ε → ε') :
    (Except.ok a : Except ε α).mapError f = Except.ok a := rfl

theorem except_mapError_error {α ε ε' : Type} (e : ε) (f : ε → ε') :
    (Except.error e : Except ε α).mapError f = Except.error (f e) := rfl

/-- C1: every public operation other than `init_nostr_mls`, called while the
session slot is empty, returns the not-initialized error and never a default
or empty success value. -/
theorem uninitialized_session_every_op_errors (ext : Externals)
    (pk : String) (relay : Option (List String)) (gn gd : String)
    (kps mpks apks rls strs pks : List String) (cpk : String)
    (gid wid : List Nat) (s prop : String) :
    get_ciphersuite none = .error MlsError.notInitialized ∧
    get_extensions none = .error MlsError.notInitialized ∧
    create_key_package_for_event ext none pk relay = .error MlsError.notInitialized ∧
    create_group ext none gn gd kps mpks cpk apks rls = .error MlsError.notInitialized ∧
    create_message_for_group ext none gid s = .error MlsError.notInitialized ∧
    export_secret none gid = .error MlsError.notInitialized ∧
    process_message_for_group ext none s = .error MlsError.notInitialized ∧
    preview_group_from_welcome ext none wid s = .error MlsError.notInitialized ∧
    join_group_from_welcome ext none wid s = .error MlsError.notInitialized ∧
    get_members none gid = .error MlsError.notInitialized ∧
    get_group none gid = .error MlsError.notInitialized ∧
    add_members none gid strs = .error MlsError.notInitialized ∧
    remove_members none gid pks = .error MlsError.notInitialized ∧
    commit_proposal ext none gid prop = .error MlsError.notInitialized ∧
    leave_group none gid = .error MlsError.notInitialized :=
  ⟨rfl, rfl, rfl, rfl, rfl, rfl, rfl, rfl, rfl, rfl, rfl, rfl, rfl, rfl, rfl⟩

/-- C3: re-initialization takes the prior session out of the slot and drops
it first; only then is the new storage constructed, and only then installed.
The slot holds the prior session before the call, is empty from the take
until the install, and never holds two sessions at once. -/
theorem init_drops_prior_before_new_storage
    (newSession : String → Option String → Except String NostrMls)
    (path : String) (identity password : Option String) (old : NostrMls) :
    (init_nostr_mls_events newSession path identity password (some old)).head? =
      some InitEvent.droppedPrior ∧
    InitEvent.droppedPrior ∉
      (init_nostr_mls_events newSession path identity password (some old)).tail ∧
    init_nostr_mls_events newSession path identity password (some old) =
      InitEvent.droppedPrior ::
        (match newSession (dbPath path identity) password with
          | .error _ => [InitEvent.storageInitAttemptFailed]
          | .ok _ => [InitEvent.storageConstructed, InitEvent.installedNew]) ∧
    init_slot_trace newSession path identity password (some old) =
      [some old, none] ++
        (match newSession (dbPath path identity) password with
          | .error _ => [none]
          | .ok s => [none, some s]) := by
  refine ⟨?_, ?_, ?_, ?_⟩ <;>
    cases h : newSession (dbPath path identity) password <;>
      simp [init_nostr_mls_events, init_slot_trace, h]

/-- C10: `init_nostr_mls` with identity `None` is behaviorally identical to
identity `Some "default"`: the same database path (the supplied directory
joined with `default-mls.db`) and the same resulting session state, effects
and slot trace. -/
theorem init_identity_none_equals_default
    (newSession : String → Option String → Except String NostrMls)
    (path : String) (password : Option String) (prior : Option NostrMls) :
    dbPath path none = pathJoin path "default-mls.db" ∧
    dbPath path (some "default") = pathJoin path "default-mls.db" ∧
    init_nostr_mls newSession path none password prior =
      init_nostr_mls newSession path (some "default") password prior ∧
    init_nostr_mls_events newSession path none password prior =
      init_nostr_mls_events newSession path (some "default") password prior ∧
    init_slot_trace newSession path none password prior =
      init_slot_trace newSession path (some "default") password prior :=
  ⟨rfl, rfl, rfl, rfl, rfl⟩

/-- C2: in `create_group`, once the underlying group creation has succeeded,
a failing member-list fetch fails the whole operation; on a successful fetch
the returned member list is exactly the fetched one — never a silently empty
or missing list. -/
theorem create_group_member_fetch_failure_fails_call
    (ext : Externals) (nostr_mls : NostrMls) (gn gd : String)
    (kps mpks apks rls : List String) (cpk : String)
    (member_pubkeys admin_pubkeys : List PublicKey)
    (member_key_packages : List KeyPackage) (creator : PublicKey)
    (relay_urls : List RelayUrl) (gcr : GroupCreateResult)
    (h1 : mpks.mapM (fun k =>
      (ext.publicKeyFromStr k).mapError MlsError.invalidMemberPubkey) = .ok member_pubkeys)
    (h2 : kps.mapM (fun s => (nostr_mls.parseSerializedKeyPackage s).mapError
      MlsError.parseKeyPackageFailed) = .ok member_key_packages)
    (h3 : apks.mapM (fun k =>
      (ext.publicKeyFromStr k).mapError MlsError.invalidAdminPubkey) = .ok admin_pubkeys)
    (h4 : ext.publicKeyFromStr cpk = .ok creator)
    (h5 : rls.mapM (fun r =>
      (ext.relayUrlFromStr r).mapError MlsError.invalidRelayUrl) = .ok relay_urls)
    (h6 : nostr_mls.createGroup gn gd creator member_pubkeys member_key_packages
      admin_pubkeys relay_urls = .ok gcr) :
    (∀ e, nostr_mls.getMembers gcr.group.mls_group_id = .error e →
      create_group ext (some nostr_mls) gn gd kps mpks cpk apks rls =
        .error (MlsError.getMembersFailed e)) ∧
    (∀ ms, nostr_mls.getMembers gcr.group.mls_group_id = .ok ms →
      create_group ext (some nostr_mls) gn gd kps mpks cpk apks rls =
        .ok (Json.obj [
          ("mls_group_id", gcr.group.mls_group_id.toJson),
          ("members", Json.arr ((ms.map (fun pk => pk.repr)).map Json.str)),
          ("serialized_welcome_message",
            Json.arr (gcr.serialized_welcome_message.map Json.num)),
          ("nostr_group_data", Json.obj [
            ("nostr_group_id", Json.str gcr.group.nostr_group_id),
            ("name", Json.str gcr.group.name),
            ("description", Json.str gcr.group.description),
            ("admin_pubkeys", pubkeysJson gcr.group.admin_pubkeys)])])) := by
  constructor
  · intro e he
    simp only [create_group, requireInit, except_ok_bind, h1, h2, h3, h4, h5, h6,
      except_mapError_ok, create_group_members_stage, he, except_error_bind]
  · intro ms hm
    simp only [create_group, requireInit, except_ok_bind, h1, h2, h3, h4, h5, h6,
      except_mapError_ok, create_group_members_stage, hm, except_error_bind]
    rfl

/-- Witness for C2 at concrete engines: all-empty member inputs, an engine
whose creation succeeds, one whose member fetch fails and one whose fetch
succeeds. -/
theorem create_group_member_fetch_failure_fails_call_witness :
    create_group stubExternals (some memberFetchFailMls) "g" "d" [] [] "c" [] [] =
      .error (MlsError.getMembersFailed "db") ∧
    create_group stubExternals (some memberFetchOkMls) "g" "d" [] [] "c" [] [] =
      .ok (Json.obj [
        ("mls_group_id", Json.arr []),
        ("members", Json.arr [Json.str "a"]),
        ("serialized_welcome_message", Json.arr []),
        ("nostr_group_data", Json.obj [
          ("nostr_group_id", Json.str "ng"),
          ("name", Json.str "n"),
          ("description", Json.str "d"),
          ("admin_pubkeys", Json.arr [])])]) :=
  ⟨(create_group_member_fetch_failure_fails_call stubExternals memberFetchFailMls
      "g" "d" [] [] [] [] "c" [] [] [] ⟨"c"⟩ []
      { group := cexGroup, serialized_welcome_message := [] }
      rfl rfl rfl rfl rfl rfl).1 "db" rfl,
   (create_group_member_fetch_failure_fails_call stubExternals memberFetchOkMls
      "g" "d" [] [] [] [] "c" [] [] [] ⟨"c"⟩ []
      { group := cexGroup, serialized_welcome_message := [] }
      rfl rfl rfl rfl rfl rfl).2 [⟨"a"⟩] rfl⟩

/-- C4: a successfully processed message yields an object carrying all three
fields; the payload field is null exactly when processing produced no
application payload, and the membership-change fields are null exactly when
no member changes were detected, carrying the detected lists otherwise. -/
theorem process_message_reports_payload_and_member_changes
    (ext : Externals) (nostr_mls : NostrMls) (s : String) (ev : Event)
    (r : ProcessResult)
    (hparse : ext.eventFromJsonStr s = .ok ev)
    (hproc : nostr_mls.processMessage ev = .ok r)
    (hser : ∀ m, r.message = some m → ∃ fs, m.toJson = .ok (Json.obj fs)) :
    ∃ mj aj rj,
      process_message_for_group ext (some nostr_mls) s =
        .ok (Json.obj [("message", mj), ("added_members", aj),
          ("removed_members", rj)]) ∧
      (mj = Json.null ↔ r.message = none) ∧
      (aj = Json.null ↔ r.member_changes = none) ∧
      (rj = Json.null ↔ r.member_changes = none) ∧
      (∀ mc, r.member_changes = some mc →
        aj = Json.arr (mc.added_members.map Json.str) ∧
        rj = Json.arr (mc.removed_members.map Json.str)) := by
  obtain ⟨msgOpt, mcOpt⟩ := r
  cases msgOpt with
  | none =>
    cases mcOpt with
    | none =>
      refine ⟨Json.null, Json.null, Json.null, ?_, by simp, by simp, by simp, by simp⟩
      simp only [process_message_for_group, requireInit, except_ok_bind, hparse,
        except_mapError_ok, hproc]
      rfl
    | some mc =>
      refine ⟨Json.null, Json.arr (mc.added_members.map Json.str),
        Json.arr (mc.removed_members.map Json.str), ?_, by simp, by simp, by simp,
        by simp⟩
      simp only [process_message_for_group, requireInit, except_ok_bind, hparse,
        except_mapError_ok, hproc]
      rfl
  | some m =>
    obtain ⟨fs, hfs⟩ := hser m rfl
    cases mcOpt with
    | none =>
      refine ⟨Json.obj fs, Json.null, Json.null, ?_, by simp, by simp, by simp,
        by simp⟩
      simp only [process_message_for_group, requireInit, except_ok_bind, hparse,
        except_mapError_ok, hproc, hfs]
      rfl
    | some mc =>
      refine ⟨Json.obj fs, Json.arr (mc.added_members.map Json.str),
        Json.arr (mc.removed_members.map Json.str), ?_, by simp, by simp, by simp,
        by simp⟩
      simp only [process_message_for_group, requireInit, except_ok_bind, hparse,
        except_mapError_ok, hproc, hfs]
      rfl

/-- Witness for C4 at a concrete engine whose processing yields both an
application payload and member changes. -/
theorem process_message_reports_payload_and_member_changes_witness :
    ∃ mj aj rj,
      process_message_for_group stubExternals (some procMls) "ev" =
        .ok (Json.obj [("message", mj), ("added_members", aj),
          ("removed_members", rj)]) ∧
      (mj = Json.null ↔
        (some (⟨.ok (Json.obj [("kind", Json.num 9)])⟩ : Message) = none)) ∧
      (aj = Json.null ↔ (some (⟨["a"], ["b"]⟩ : MemberChanges) = none)) ∧
      (rj = Json.null ↔ (some (⟨["a"], ["b"]⟩ : MemberChanges) = none)) ∧
      (∀ mc, (some (⟨["a"], ["b"]⟩ : MemberChanges) = some mc) →
        aj = Json.arr (mc.added_members.map Json.str) ∧
        rj = Json.arr (mc.removed_members.map Json.str)) :=
  process_message_reports_payload_and_member_changes stubExternals procMls "ev"
    ⟨"ev", .ok Json.null⟩
    { message := some ⟨.ok (Json.obj [("kind", Json.num 9)])⟩
      member_changes := some ⟨["a"], ["b"]⟩ }
    rfl rfl
    (fun m hm => ⟨[("kind", Json.num 9)], by rw [← Option.some_inj.mp hm]⟩)

/-- C5 counterexample: at a concrete session the ciphersuite and extension
outputs are debug-formatted strings embedded in the JSON, not structured
values — the ciphersuite is the string of its numeric value and the
extensions are one comma-joined string of debug representations. -/
theorem debug_formatted_outputs_cex :
    get_ciphersuite (some debugMls) =
      .ok (Json.obj [("ciphersuite", Json.str "1")]) ∧
    ¬ specStructuredValue (Json.str "1") ∧
    get_extensions (some debugMls) =
      .ok (Json.obj [("extensions", Json.str "LastResort,RatchetTree")]) ∧
    ¬ specStructuredValue (Json.str "LastResort,RatchetTree") :=
  ⟨rfl, fun h => h "1" rfl, rfl, fun h => h "LastResort,RatchetTree" rfl⟩

/-- C5 amended: `get_ciphersuite` returns the debug-formatted decimal string
of the ciphersuite value, `get_extensions` returns a single comma-joined
string of debug representations, and `create_key_package_for_event` returns
tags as an array of debug-formatted strings. -/
theorem debug_formatted_outputs_amended (mls : NostrMls) :
    get_ciphersuite (some mls) =
      .ok (Json.obj [("ciphersuite", Json.str (u16Debug mls.ciphersuite))]) ∧
    get_extensions (some mls) =
      .ok (Json.obj [("extensions",
        Json.str (String.intercalate "," (mls.extensions.map Ext.debugRepr)))]) ∧
    (∀ (ext : Externals) (pk : String) (relay : Option (List String))
        (pkv : PublicKey) (rvs : List RelayUrl) (encoded : String)
        (tags : List Tag),
      ext.publicKeyFromStr pk = .ok pkv →
      (match relay with
        | some rs => rs.mapM (fun r => (ext.relayUrlFromStr r).mapError
            (fun _ => MlsError.invalidRelayUrl r))
        | none => pure []) = Except.ok rvs →
      mls.createKeyPackageForEvent pkv rvs = .ok (encoded, tags) →
      create_key_package_for_event ext (some mls) pk relay =
        .ok (Json.obj [("encoded_key_package", Json.str encoded),
          ("tags", Json.arr (tags.map (fun t => Json.str t.debugRepr)))])) := by
  refine ⟨rfl, rfl, ?_⟩
  intro ext pk relay pkv rvs encoded tags hpk hrel hcall
  simp only [except_pure] at hrel
  simp only [create_key_package_for_event, requireInit, except_ok_bind, hpk,
    except_mapError_ok, except_pure, hrel, hcall]

/-- Witness for the amended C5 at a concrete engine producing one tag. -/
theorem debug_formatted_outputs_amended_witness :
    create_key_package_for_event stubExternals (some tagMls) "pk" (some []) =
      .ok (Json.obj [("encoded_key_package", Json.str "ekp"),
        ("tags", Json.arr [Json.str "Tag-debug"])]) :=
  (debug_formatted_outputs_amended tagMls).2.2 stubExternals "pk" (some [])
    ⟨"pk"⟩ [] "ekp" [⟨"Tag-debug"⟩] rfl rfl rfl

/-- C6 counterexample: supplying the empty byte array — not a well-formed
fixed-length group id — to `get_group` does not fail with an invalid-input
error: the bytes are converted infallibly and the call even succeeds against
an engine holding a group under that id. -/
theorem malformed_group_id_accepted_cex :
    get_group (some foundMls) [] =
      .ok (Json.obj [
        ("mls_group_id", Json.arr []),
        ("members", Json.arr [Json.str "a"]),
        ("nostr_group_data", Json.obj [
          ("nostr_group_id", Json.str "ng"),
          ("name", Json.str "n"),
          ("description", Json.str "d"),
          ("admin_pubkeys", Json.arr [])])]) := rfl

/-- C6 amended: group id byte arrays are never validated — `GroupId::
from_slice` accepts any bytes unchanged and each operation proceeds directly
to its post-conversion body; for the operations whose only input is the
group id, no reachable error is of the invalid-input class (failures are
engine or not-found errors surfaced downstream). -/
theorem group_id_never_validated (m : NostrMls) (ext : Externals)
    (gid : List Nat) (s prop : String) (strs pks : List String) :
    (GroupId.fromSlice gid).bytes = gid ∧
    get_group (some m) gid = get_group_core m (GroupId.fromSlice gid) ∧
    get_members (some m) gid = get_members_core m (GroupId.fromSlice gid) ∧
    export_secret (some m) gid = export_secret_core m (GroupId.fromSlice gid) ∧
    create_message_for_group ext (some m) gid s =
      ((ext.unsignedEventFromJson s).mapError MlsError.parseEventFailed >>=
        create_message_core m (GroupId.fromSlice gid)) ∧
    add_members (some m) gid strs =
      add_members_core m (GroupId.fromSlice gid) strs ∧
    remove_members (some m) gid pks =
      remove_members_core m (GroupId.fromSlice gid) pks ∧
    commit_proposal ext (some m) gid prop =
      commit_proposal_core ext m (GroupId.fromSlice gid) prop ∧
    leave_group (some m) gid = leave_group_core m (GroupId.fromSlice gid) ∧
    (∀ r, get_group (some m) gid = .error r → ¬ r.isInvalidInput) ∧
    (∀ r, get_members (some m) gid = .error r → ¬ r.isInvalidInput) ∧
    (∀ r, export_secret (some m) gid = .error r → ¬ r.isInvalidInput) ∧
    (∀ r, leave_group (some m) gid = .error r → ¬ r.isInvalidInput) := by
  refine ⟨rfl, rfl, rfl, rfl, rfl, rfl, rfl, rfl, rfl, ?_, ?_, ?_, ?_⟩
  · intro r hr
    simp only [get_group, requireInit, except_ok_bind, get_group_core] at hr
    cases hg : m.getGroup (GroupId.fromSlice gid) with
    | error e =>
      rw [hg] at hr
      simp only [except_mapError_error, except_error_bind] at hr
      injection hr with h
      rw [← h]
      simp [MlsError.isInvalidInput]
    | ok groupOpt =>
      rw [hg] at hr
      simp only [except_mapError_ok, except_ok_bind, except_pure] at hr
      cases groupOpt with
      | none =>
        simp only [except_error_bind] at hr
        injection hr with h
        rw [← h]
        simp [MlsError.isInvalidInput]
      | some g =>
        simp only [except_ok_bind, except_pure] at hr
        cases hms : m.getMembers (GroupId.fromSlice gid) with
        | error e =>
          rw [hms] at hr
          simp only [except_mapError_error, except_error_bind] at hr
          injection hr with h
          rw [← h]
          simp [MlsError.isInvalidInput]
        | ok ms =>
          rw [hms] at hr
          simp only [except_mapError_ok, except_ok_bind, except_pure] at hr
          exact absurd hr (by simp)
  · intro r hr
    simp only [get_members, requireInit, except_ok_bind, get_members_core] at hr
    cases hms : m.getMembers (GroupId.fromSlice gid) with
    | error e =>
      rw [hms] at hr
      simp only [except_mapError_error, except_error_bind] at hr
      injection hr with h
      rw [← h]
      simp [MlsError.isInvalidInput]
    | ok ms =>
      rw [hms] at hr
      simp only [except_mapError_ok, except_ok_bind, except_pure] at hr
      exact absurd hr (by simp)
  · intro r hr
    simp only [export_secret, requireInit, except_ok_bind, export_secret_core] at hr
    cases hes : m.exporterSecret (GroupId.fromSlice gid) with
    | error e =>
      rw [hes] at hr
      simp only [except_mapError_error, except_error_bind] at hr
      injection hr with h
      rw [← h]
      simp [MlsError.isInvalidInput]
    | ok es =>
      rw [hes] at hr
      simp only [except_mapError_ok, except_ok_bind, except_pure] at hr
      exact absurd hr (by simp)
  · intro r hr
    simp only [leave_group, requireInit, except_ok_bind, leave_group_core] at hr
    cases hl : m.leaveGroup (GroupId.fromSlice gid) with
    | error e =>
      rw [hl] at hr
      simp only [except_mapError_error, except_error_bind] at hr
      injection hr with h
      rw [← h]
      simp [MlsError.isInvalidInput]
    | ok res =>
      rw [hl] at hr
      simp only [except_mapError_ok, except_ok_bind, except_pure] at hr
      exact absurd hr (by simp)

/-- Witness for the amended C6: an unknown empty group id surfaces as the
group-not-found error, which is not of the invalid-input class. -/
theorem group_id_never_validated_witness :
    ¬ (MlsError.groupNotFound).isInvalidInput :=
  (group_id_never_validated notFoundMls stubExternals [] "" "" [] []
    ).2.2.2.2.2.2.2.2.2.1 MlsError.groupNotFound rfl

/-- C7: `create_key_package_for_event` rejects a malformed public key, and a
malformed relay url, with the corresponding invalid-input error; in either
case the result is the same for every possible engine key-package creation
behavior, so the effectful creation is only reached after all inputs have
parsed successfully. -/
theorem create_key_package_rejects_bad_inputs
    (ext : Externals) (mls : NostrMls) (pk : String)
    (relay : Option (List String)) :
    (∀ e, ext.publicKeyFromStr pk = .error e →
      ∀ f, create_key_package_for_event ext
          (some { mls with createKeyPackageForEvent := f }) pk relay =
        .error (MlsError.invalidPublicKey e)) ∧
    (∀ pkv rs err, ext.publicKeyFromStr pk = .ok pkv → relay = some rs →
      rs.mapM (fun r => (ext.relayUrlFromStr r).mapError
        (fun _ => MlsError.invalidRelayUrl r)) = .error err →
      ∀ f, create_key_package_for_event ext
          (some { mls with createKeyPackageForEvent := f }) pk relay =
        .error err) := by
  constructor
  · intro e he f
    simp only [create_key_package_for_event, requireInit, except_ok_bind, he,
      except_mapError_error, except_error_bind]
  · intro pkv rs err hpk hrel hmap f
    subst hrel
    simp only [create_key_package_for_event, requireInit, except_ok_bind, hpk,
      except_mapError_ok, hmap, except_error_bind]

/-- Witness for C7: a rejecting public key parser and a rejecting relay url
parser each produce the invalid-input error against the stub engine. -/
theorem create_key_package_rejects_bad_inputs_witness :
    create_key_package_for_event badPkExternals (some stubEngine) "x" none =
      .error (MlsError.invalidPublicKey "bad pk") ∧
    create_key_package_for_event badRelayExternals (some stubEngine) "x"
        (some ["u"]) =
      .error (MlsError.invalidRelayUrl "u") :=
  ⟨(create_key_package_rejects_bad_inputs badPkExternals stubEngine "x" none).1
      "bad pk" rfl stubEngine.createKeyPackageForEvent,
   (create_key_package_rejects_bad_inputs badRelayExternals stubEngine "x"
      (some ["u"])).2 ⟨"x"⟩ ["u"] (MlsError.invalidRelayUrl "u") rfl rfl rfl
      stubEngine.createKeyPackageForEvent⟩

theorem range'_cons (s n : Nat) :
    List.range' s (n + 1) = s :: List.range' (s + 1) n := rfl

/-- C8: every successful commit-producing operation advances the epoch by
exactly one, and a successful run of commits observes exactly the epochs
`st.epoch + 1, st.epoch + 2, ...` — strictly increasing, no value skipped or
repeated. -/
theorem commits_advance_epoch_by_exactly_one :
    (∀ st op st2, applyCommit st op = .ok st2 → st2.epoch = st.epoch + 1) ∧
    (∀ ops st fin tr, runCommits st ops = .ok (fin, tr) →
      tr = List.range' (st.epoch + 1) ops.length ∧
      fin.epoch = st.epoch + ops.length) := by
  have h1 : ∀ st op st2, applyCommit st op = .ok st2 → st2.epoch = st.epoch + 1 := by
    intro st op st2 h
    cases op with
    | addMembers kps =>
      simp only [applyCommit] at h
      split at h
      · exact absurd h (by simp)
      · injection h with h2
        rw [← h2]
    | removeMembers pks =>
      simp only [applyCommit] at h
      split at h
      · injection h with h2
        rw [← h2]
      · exact absurd h (by simp)
    | commitProposal pe =>
      simp only [applyCommit] at h
      split at h
      · injection h with h2
        rw [← h2]
      · exact absurd h (by simp)
  refine ⟨h1, ?_⟩
  intro ops
  induction ops with
  | nil =>
    intro st fin tr h
    simp only [runCommits] at h
    injection h with h2
    injection h2 with ha hb
    subst ha
    subst hb
    exact ⟨rfl, rfl⟩
  | cons op ops ih =>
    intro st fin tr h
    simp only [runCommits] at h
    cases hop : applyCommit st op with
    | error e =>
      simp only [hop] at h
      exact absurd h (by simp)
    | ok st2 =>
      simp only [hop] at h
      cases hrun : runCommits st2 ops with
      | error e =>
        simp only [hrun] at h
        exact absurd h (by simp)
      | ok pr =>
        obtain ⟨fin2, tr2⟩ := pr
        simp only [hrun] at h
        injection h with h2
        injection h2 with ha hb
        subst ha
        subst hb
        obtain ⟨htr, hfin⟩ := ih st2 fin2 tr2 hrun
        have hep := h1 st op st2 hop
        constructor
        · show st2.epoch :: tr2 = List.range' (st.epoch + 1) (ops.length + 1)
          rw [range'_cons, htr, hep]
        · show fin2.epoch = st.epoch + (ops.length + 1)
          rw [hfin, hep]
          omega

/-- Witness for C8: a concrete run of three commits (add, remove, commit a
proposal) from epoch 0 observes exactly the epochs 1, 2, 3. -/
theorem commits_advance_epoch_by_exactly_one_witness :
    runCommits ⟨0, ["c"], ["c"]⟩
      [CommitOp.addMembers [⟨"a", false⟩], CommitOp.removeMembers ["a"],
        CommitOp.commitProposal 2] =
      .ok (⟨3, ["c"], ["c"]⟩, [1, 2, 3]) ∧
    [1, 2, 3] = List.range' (0 + 1) 3 :=
  ⟨rfl, (commits_advance_epoch_by_exactly_one.2
      [CommitOp.addMembers [⟨"a", false⟩], CommitOp.removeMembers ["a"],
        CommitOp.commitProposal 2] ⟨0, ["c"], ["c"]⟩ ⟨3, ["c"], ["c"]⟩ [1, 2, 3]
      rfl).1⟩

/-- C9: a failed re-initialization is not atomic: when the new storage
construction fails after a prior session existed, the prior session is
already torn down and the slot is left empty, so every subsequent operation
fails as not-initialized, until a later successful init installs a session. -/
theorem failed_reinit_leaves_slot_empty
    (newSession : String → Option String → Except String NostrMls)
    (path : String) (identity password : Option String) (old : NostrMls)
    (e : String)
    (h : newSession (dbPath path identity) password = .error e) :
    init_nostr_mls newSession path identity password (some old) =
      (.error (MlsError.storageInitFailed e), none) ∧
    (init_slot_trace newSession path identity password (some old)).getLast? =
      some none ∧
    get_ciphersuite none = .error MlsError.notInitialized ∧
    get_extensions none = .error MlsError.notInitialized ∧
    (∀ ext pk relay, create_key_package_for_event ext none pk relay =
      .error MlsError.notInitialized) ∧
    (∀ ext s, process_message_for_group ext none s =
      .error MlsError.notInitialized) ∧
    (∀ gid, get_group none gid = .error MlsError.notInitialized) ∧
    (∀ gid, get_members none gid = .error MlsError.notInitialized) ∧
    (∀ gid, export_secret none gid = .error MlsError.notInitialized) ∧
    (∀ gid strs, add_members none gid strs = .error MlsError.notInitialized) ∧
    (∀ gid pks, remove_members none gid pks = .error MlsError.notInitialized) ∧
    (∀ gid, leave_group none gid = .error MlsError.notInitialized) ∧
    (∀ newSession2 path2 identity2 password2 s2,
      newSession2 (dbPath path2 identity2) password2 = .ok s2 →
      init_nostr_mls newSession2 path2 identity2 password2 none =
        (.ok (Json.obj [("status", Json.str "success")]), some s2)) := by
  refine ⟨?_, ?_, rfl, rfl, fun _ _ _ => rfl, fun _ _ => rfl, fun _ => rfl,
    fun _ => rfl, fun _ => rfl, fun _ _ => rfl, fun _ _ => rfl, fun _ => rfl, ?_⟩
  · simp [init_nostr_mls, h]
  · simp [init_slot_trace, h]
  · intro ns2 p2 i2 pw2 s2 h2
    simp [init_nostr_mls, h2]

/-- Witness for C9 at a storage constructor that always fails. -/
theorem failed_reinit_leaves_slot_empty_witness :
    init_nostr_mls (fun _ _ => .error "disk full") "p" none none
        (some stubEngine) =
      (.error (MlsError.storageInitFailed "disk full"), none) ∧
    get_ciphersuite none = .error MlsError.notInitialized :=
  ⟨(failed_reinit_leaves_slot_empty (fun _ _ => .error "disk full") "p" none none
      stubEngine "disk full" rfl).1,
   (failed_reinit_leaves_slot_empty (fun _ _ => .error "disk full") "p" none none
      stubEngine "disk full" rfl).2.2.1⟩

end MlsApi
